import Mathlib

/-!
Verification of the STM32 Button Handler library (`Src/button_handler.c`,
`Inc/button_handler.h`, `Inc/Common.h`).

The C module debounces a push-button sampled through a GPIO pin and turns a
burst of presses into a single validated count, finalized by an idle timeout.
We embed the module shallowly: the `Button_t` struct becomes a Lean structure,
the two public functions `Button_Init` / `Button_GetFinalCount` and the private
step `Button_CountPushes` become pure state-passing functions.  The external
collaborators that are not part of this repository (the `softTimer` service and
the HAL GPIO read / pull-mode constants) are modelled from the spec's contract
for them; the sampled pin level and the current millisecond tick are explicit
parameters of each call.
-/

set_option maxHeartbeats 1000000
set_option linter.unreachableTactic false
set_option linter.unusedTactic false
set_option linter.unnecessarySeqFocus false
set_option linter.unusedVariables false

namespace ButtonHandler

/-- Pin level, mirroring the HAL `GPIO_PinState` two-valued type
(`GPIO_PIN_RESET` = low, `GPIO_PIN_SET` = high). -/
inductive GPIO_PinState where
  | pinReset : GPIO_PinState
  | pinSet : GPIO_PinState
  deriving DecidableEq, Repr

/-- Source name `GPIO_PIN_RESET` (logical low). -/
def GPIO_PIN_RESET : GPIO_PinState := GPIO_PinState.pinReset

/-- Source name `GPIO_PIN_SET` (logical high). -/
def GPIO_PIN_SET : GPIO_PinState := GPIO_PinState.pinSet

/-- Modelled from the spec: the HAL pull-mode constants (`GPIO_NOPULL`,
`GPIO_PULLUP`, `GPIO_PULLDOWN`) are the recognized polarity options stored in
the `pull` field; the HAL header defining their numeric values is not part of
this repository.  The core only ever compares `pull` against `GPIO_PULLUP`. -/
def GPIO_NOPULL : Nat := 0

/-- Modelled from the spec: HAL pull-up constant (active level is low). -/
def GPIO_PULLUP : Nat := 1

/-- Modelled from the spec: HAL pull-down constant (active level is high). -/
def GPIO_PULLDOWN : Nat := 2

/-- The `return_t` status enum from `Inc/Common.h`. -/
inductive return_t where
  | return_success : return_t
  | return_failed : return_t
  | return_busy : return_t
  deriving DecidableEq, Repr

export return_t (return_success return_failed return_busy)

/-- Modelled from the spec: a `softTimer_t` is a restartable stopwatch; we
represent it by the millisecond tick recorded at its last reset (the
`softTimer` library itself is not part of this repository).  `softTimer_reset`
records the current tick as the new reference point. -/
def softTimer_reset (now : Nat) : Nat := now

/-- Modelled from the spec: `softTimer_isElapsed(timer, threshold)` is true iff
current time minus the reference recorded at the last reset is at least
`threshold` milliseconds (threshold inclusive, monotonic tick). -/
def softTimer_isElapsed (tRef : Nat) (threshold : Nat) (now : Nat) : Bool :=
  threshold ≤ now - tRef

/-- `DEBOUNCE_DELAY_MS` from `button_handler.c` (50 ms). -/
def DEBOUNCE_DELAY_MS : Nat := 50

/-- The `SEC_TO_MS` macro used by `button_handler.c`. -/
def SEC_TO_MS (s : Nat) : Nat := s * 1000

/-- `BUTTON_TIMEOUT_MS` from `button_handler.c` (`SEC_TO_MS(1)` = 1000 ms). -/
def BUTTON_TIMEOUT_MS : Nat := SEC_TO_MS 1

/-- `PUSH_COUNT_MAX` from `button_handler.h` (5). -/
def PUSH_COUNT_MAX : Nat := 5

/-- The `Button_t` struct from `button_handler.h`.  `port` is kept as an
opaque numeric handle; `pushCount` is a `uint8_t` in C, modelled as a `Nat`
with increments taken mod 2^8; each timer field holds the tick recorded at the
timer's last reset. -/
structure Button_t where
  port : Nat
  pin : Nat
  pushCount : Nat
  isReadFinish : Bool
  debounceTimer : Nat
  timeoutTimer : Nat
  lastState : GPIO_PinState
  pull : Nat
  deriving DecidableEq, Repr

/-- `Button_Init` from `button_handler.c`: stores port, pin and pull, zeroes
`pushCount`, clears `isReadFinish`, resets both timers (recording the current
tick `now`), and sets `lastState` to `GPIO_PIN_RESET`. -/
def Button_Init (port : Nat) (pin : Nat) (pull : Nat) (now : Nat) : Button_t :=
  { port := port
    pin := pin
    pushCount := 0
    isReadFinish := false
    debounceTimer := softTimer_reset now
    timeoutTimer := softTimer_reset now
    lastState := GPIO_PIN_RESET
    pull := pull }

/-- The local `activeState` of `Button_CountPushes`: the sampled level that
counts as pressed, `(pull == GPIO_PULLUP) ? GPIO_PIN_RESET : GPIO_PIN_SET`. -/
def activeState (pull : Nat) : GPIO_PinState :=
  if pull = GPIO_PULLUP then GPIO_PIN_RESET else GPIO_PIN_SET

/-- The local `inactiveState` of `Button_CountPushes`:
`(pull == GPIO_PULLUP) ? GPIO_PIN_SET : GPIO_PIN_RESET`. -/
def inactiveState (pull : Nat) : GPIO_PinState :=
  if pull = GPIO_PULLUP then GPIO_PIN_SET else GPIO_PIN_RESET

/-- The state mutation performed by `Button_CountPushes` before its result
checks: edge detection with debouncing (increment `pushCount` and reset both
timers on a confirmed inactive-to-active transition), the unconditional
`lastState` update, and the independent timeout check that sets `isReadFinish`
and re-arms the timeout timer.  `currentState` is the value returned by
`HAL_GPIO_ReadPin`, `now` the current millisecond tick. -/
def countStep (b : Button_t) (now : Nat) (currentState : GPIO_PinState) : Button_t :=
  let b1 :=
    if currentState = activeState b.pull ∧ b.lastState = inactiveState b.pull then
      if softTimer_isElapsed b.debounceTimer DEBOUNCE_DELAY_MS now then
        { b with debounceTimer := softTimer_reset now
                 timeoutTimer := softTimer_reset now
                 pushCount := (b.pushCount + 1) % 2 ^ 8 }
      else b
    else b
  let b2 := { b1 with lastState := currentState }
  if softTimer_isElapsed b2.timeoutTimer BUTTON_TIMEOUT_MS now then
    { b2 with isReadFinish := true
              timeoutTimer := softTimer_reset now }
  else b2

/-- `Button_CountPushes` from `button_handler.c`: perform the counting step,
then the overflow guard (`pushCount > PUSH_COUNT_MAX` resets the counter and
returns `return_failed`), then report `return_success` when `isReadFinish` is
set and `return_busy` otherwise. -/
def Button_CountPushes (b : Button_t) (now : Nat) (currentState : GPIO_PinState) :
    return_t × Button_t :=
  let b := countStep b now currentState
  if PUSH_COUNT_MAX < b.pushCount then
    (return_failed, { b with pushCount := 0 })
  else if b.isReadFinish then
    (return_success, b)
  else
    (return_busy, b)

/-- Result of one `Button_GetFinalCount` call: the returned status, the button
state after the call, and the value held by the `finalCount` output location
after the call (equal to the passed-in value when the call does not write). -/
structure FetchResult where
  status : return_t
  button : Button_t
  finalCount : Nat
  deriving DecidableEq, Repr

/-- `Button_GetFinalCount` from `button_handler.c`: run `Button_CountPushes`;
on `return_success`, write `pushCount` to the output and return success when
`0 < pushCount ≤ PUSH_COUNT_MAX`, otherwise return failed, and in both cases
reset `pushCount` and `isReadFinish`; on `return_failed` or `return_busy`
propagate the status unchanged without touching the output.  `finalCount` is
the value at the output location before the call. -/
def Button_GetFinalCount (b : Button_t) (now : Nat) (currentState : GPIO_PinState)
    (finalCount : Nat) : FetchResult :=
  let r := Button_CountPushes b now currentState
  let countResult := r.1
  let b := r.2
  if countResult = return_success then
    if 0 < b.pushCount ∧ b.pushCount ≤ PUSH_COUNT_MAX then
      { status := return_success
        button := { b with pushCount := 0, isReadFinish := false }
        finalCount := b.pushCount }
    else
      { status := return_failed
        button := { b with pushCount := 0, isReadFinish := false }
        finalCount := finalCount }
  else
    { status := countResult, button := b, finalCount := finalCount }

/-- States of a button that can arise in the program: the state produced by
`Button_Init`, closed under `Button_GetFinalCount` calls (each with an
arbitrary tick, sampled pin level and output location). -/
inductive Reachable : Button_t → Prop where
  | init (port pin pull now : Nat) : Reachable (Button_Init port pin pull now)
  | step (b : Button_t) (now : Nat) (cur : GPIO_PinState) (fc : Nat) :
      Reachable b → Reachable (Button_GetFinalCount b now cur fc).button

/-- The inductive invariant of reachable (between-calls) button states: the
tally is within bounds, the finished flag has been consumed, and the debounce
timer was last reset no later than the timeout timer. -/
def Inv (b : Button_t) : Prop :=
  b.pushCount ≤ PUSH_COUNT_MAX ∧ b.isReadFinish = false ∧
    b.debounceTimer ≤ b.timeoutTimer

/-! ### Helper lemmas -/

/-- For every pull configuration the active and inactive levels differ. -/
lemma active_ne_inactive (p : Nat) : activeState p ≠ inactiveState p := by
  unfold activeState inactiveState
  split_ifs <;> simp [GPIO_PIN_RESET, GPIO_PIN_SET]

/-- A call without a confirmed edge (no inactive-to-active transition, or one
rejected by the debounce timer) with the timeout timer not elapsed only
records the sampled level. -/
lemma countStep_quiet (b : Button_t) (now : Nat) (cur : GPIO_PinState)
    (h : ¬(cur = activeState b.pull ∧ b.lastState = inactiveState b.pull) ∨
      softTimer_isElapsed b.debounceTimer DEBOUNCE_DELAY_MS now = false)
    (hto : softTimer_isElapsed b.timeoutTimer BUTTON_TIMEOUT_MS now = false) :
    countStep b now cur = { b with lastState := cur } := by
  unfold countStep
  rcases h with h | h
  · rw [if_neg h]
    simp [hto]
  · by_cases he : cur = activeState b.pull ∧ b.lastState = inactiveState b.pull
    · rw [if_pos he, h]
      simp [hto]
    · rw [if_neg he]
      simp [hto]

/-- A call without a confirmed edge in which the timeout timer has elapsed
records the sampled level, sets the finished flag and re-arms the timeout
timer. -/
lemma countStep_timeout (b : Button_t) (now : Nat) (cur : GPIO_PinState)
    (h : ¬(cur = activeState b.pull ∧ b.lastState = inactiveState b.pull) ∨
      softTimer_isElapsed b.debounceTimer DEBOUNCE_DELAY_MS now = false)
    (hto : softTimer_isElapsed b.timeoutTimer BUTTON_TIMEOUT_MS now = true) :
    countStep b now cur =
      { b with lastState := cur, isReadFinish := true,
               timeoutTimer := softTimer_reset now } := by
  unfold countStep
  rcases h with h | h
  · rw [if_neg h]
    simp [hto]
  · by_cases he : cur = activeState b.pull ∧ b.lastState = inactiveState b.pull
    · rw [if_pos he, h]
      simp [hto]
    · rw [if_neg he]
      simp [hto]

/-- A confirmed edge increments the tally, resets both timers to the current
tick, and records the sampled level; the timeout check then cannot fire in the
same call because the timeout timer was just reset. -/
lemma countStep_confirmed (b : Button_t) (now : Nat) (cur : GPIO_PinState)
    (h1 : cur = activeState b.pull) (h2 : b.lastState = inactiveState b.pull)
    (hd : softTimer_isElapsed b.debounceTimer DEBOUNCE_DELAY_MS now = true) :
    countStep b now cur =
      { b with debounceTimer := softTimer_reset now
               timeoutTimer := softTimer_reset now
               pushCount := (b.pushCount + 1) % 2 ^ 8
               lastState := cur } := by
  unfold countStep
  rw [if_pos (And.intro h1 h2), hd]
  simp [softTimer_isElapsed, softTimer_reset, BUTTON_TIMEOUT_MS, SEC_TO_MS]

/-- A counter below the maximum does not wrap when incremented. -/
lemma mod256_small (pc : Nat) (h : pc ≤ PUSH_COUNT_MAX) :
    (pc + 1) % 2 ^ 8 = pc + 1 := by
  apply Nat.mod_eq_of_lt
  unfold PUSH_COUNT_MAX at h
  omega

/-- One `Button_GetFinalCount` call preserves the inductive invariant. -/
lemma Inv_step (b : Button_t) (now : Nat) (cur : GPIO_PinState) (fc : Nat)
    (h : Inv b) : Inv (Button_GetFinalCount b now cur fc).button := by
  obtain ⟨hpc, hrf, htm⟩ := h
  unfold Button_GetFinalCount Button_CountPushes
  by_cases he : cur = activeState b.pull ∧ b.lastState = inactiveState b.pull
  · cases hd : softTimer_isElapsed b.debounceTimer DEBOUNCE_DELAY_MS now with
    | true =>
        rw [countStep_confirmed b now cur he.1 he.2 hd, mod256_small b.pushCount hpc]
        simp only [softTimer_reset, hrf]
        split_ifs with hov hfin <;>
          simp_all [Inv, PUSH_COUNT_MAX] <;> omega
    | false =>
        cases hto : softTimer_isElapsed b.timeoutTimer BUTTON_TIMEOUT_MS now with
        | true =>
            rw [countStep_timeout b now cur (Or.inr hd) hto]
            simp only [softTimer_reset, hrf]
            split_ifs with hov hval <;>
              simp_all [Inv, softTimer_isElapsed, BUTTON_TIMEOUT_MS, SEC_TO_MS,
                PUSH_COUNT_MAX] <;> omega
        | false =>
            rw [countStep_quiet b now cur (Or.inr hd) hto]
            simp only [hrf]
            split_ifs with hov <;>
              simp_all [Inv, PUSH_COUNT_MAX] <;> omega
  · cases hto : softTimer_isElapsed b.timeoutTimer BUTTON_TIMEOUT_MS now with
    | true =>
        rw [countStep_timeout b now cur (Or.inl he) hto]
        simp only [softTimer_reset, hrf]
        split_ifs with hov hval <;>
          simp_all [Inv, softTimer_isElapsed, BUTTON_TIMEOUT_MS, SEC_TO_MS,
            PUSH_COUNT_MAX] <;> omega
    | false =>
        rw [countStep_quiet b now cur (Or.inl he) hto]
        simp only [hrf]
        split_ifs with hov <;>
          simp_all [Inv, PUSH_COUNT_MAX] <;> omega

/-- Every reachable button state satisfies the inductive invariant. -/
lemma Reachable_Inv (b : Button_t) (h : Reachable b) : Inv b := by
  induction h with
  | init port pin pull now =>
      simp [Inv, Button_Init, softTimer_reset, PUSH_COUNT_MAX]
  | step b now cur fc _ ih => exact Inv_step b now cur fc ih

/-- Without a confirmed edge, `Button_CountPushes` leaves the tally unchanged
or (through the overflow guard) resets it to zero. -/
lemma CountPushes_pc_passive (b : Button_t) (now : Nat) (cur : GPIO_PinState)
    (h : ¬(cur = activeState b.pull ∧ b.lastState = inactiveState b.pull) ∨
      softTimer_isElapsed b.debounceTimer DEBOUNCE_DELAY_MS now = false) :
    (Button_CountPushes b now cur).2.pushCount = b.pushCount ∨
      (Button_CountPushes b now cur).2.pushCount = 0 := by
  unfold Button_CountPushes
  cases hto : softTimer_isElapsed b.timeoutTimer BUTTON_TIMEOUT_MS now with
  | false =>
      rw [countStep_quiet b now cur h hto]
      dsimp only
      split_ifs <;> simp
  | true =>
      rw [countStep_timeout b now cur h hto]
      dsimp only
      split_ifs <;> simp

/-! ### Claim theorems -/

/-- C3: if the tally exceeds `PUSH_COUNT_MAX` during the counting step, the
call returns `return_failed` and the tally is reset to 0; a `return_success`
call never exposes an output count above `PUSH_COUNT_MAX`. -/
theorem C3_overflow_guard (b : Button_t) (now : Nat) (cur : GPIO_PinState)
    (fc : Nat) :
    (PUSH_COUNT_MAX < (countStep b now cur).pushCount →
      (Button_GetFinalCount b now cur fc).status = return_failed ∧
      (Button_GetFinalCount b now cur fc).button.pushCount = 0) ∧
    ((Button_GetFinalCount b now cur fc).status = return_success →
      (Button_GetFinalCount b now cur fc).finalCount ≤ PUSH_COUNT_MAX) := by
  unfold Button_GetFinalCount Button_CountPushes
  dsimp only
  split_ifs <;> simp_all <;> omega

/-- C3 witness: a state whose tally already stands at 6 overflows the guard,
and the call returns `return_failed` with the tally cleared. -/
theorem C3_overflow_guard_witness :
    PUSH_COUNT_MAX < (countStep
      { port := 0, pin := 1, pushCount := 6, isReadFinish := false,
        debounceTimer := 0, timeoutTimer := 0, lastState := GPIO_PIN_RESET,
        pull := GPIO_PULLDOWN } 10 GPIO_PIN_RESET).pushCount ∧
    ((Button_GetFinalCount
      { port := 0, pin := 1, pushCount := 6, isReadFinish := false,
        debounceTimer := 0, timeoutTimer := 0, lastState := GPIO_PIN_RESET,
        pull := GPIO_PULLDOWN } 10 GPIO_PIN_RESET 99).status = return_failed ∧
     (Button_GetFinalCount
      { port := 0, pin := 1, pushCount := 6, isReadFinish := false,
        debounceTimer := 0, timeoutTimer := 0, lastState := GPIO_PIN_RESET,
        pull := GPIO_PULLDOWN } 10 GPIO_PIN_RESET 99).button.pushCount = 0) :=
  ⟨by decide,
   (C3_overflow_guard
     { port := 0, pin := 1, pushCount := 6, isReadFinish := false,
       debounceTimer := 0, timeoutTimer := 0, lastState := GPIO_PIN_RESET,
       pull := GPIO_PULLDOWN } 10 GPIO_PIN_RESET 99).1 (by decide)⟩

/-- C4: the tally can only grow on the polarity's inactive-to-active sample
pair — high-to-low under pull-up, low-to-high otherwise — and any other sample
pair never increments it. -/
theorem C4_polarity_edges (b : Button_t) (now : Nat) (cur : GPIO_PinState) :
    ((Button_CountPushes b now cur).2.pushCount > b.pushCount →
      (b.pull = GPIO_PULLUP →
        b.lastState = GPIO_PIN_SET ∧ cur = GPIO_PIN_RESET) ∧
      (b.pull ≠ GPIO_PULLUP →
        b.lastState = GPIO_PIN_RESET ∧ cur = GPIO_PIN_SET)) ∧
    (¬(cur = activeState b.pull ∧ b.lastState = inactiveState b.pull) →
      (Button_CountPushes b now cur).2.pushCount ≤ b.pushCount) := by
  by_cases he : cur = activeState b.pull ∧ b.lastState = inactiveState b.pull
  · refine ⟨fun _ => ⟨fun hp => ?_, fun hp => ?_⟩, fun h => absurd he h⟩
    · obtain ⟨h1, h2⟩ := he
      rw [hp] at h1 h2
      simp only [activeState, inactiveState, if_pos] at h1 h2
      exact ⟨h2, h1⟩
    · obtain ⟨h1, h2⟩ := he
      simp only [activeState, inactiveState, if_neg hp] at h1 h2
      exact ⟨h2, h1⟩
  · have hle : (Button_CountPushes b now cur).2.pushCount ≤ b.pushCount := by
      rcases CountPushes_pc_passive b now cur (Or.inl he) with h | h <;> omega
    exact ⟨fun hgt => absurd hle (by omega), fun _ => hle⟩

/-- C4 witness: under pull-down, a low-to-high sample pair at a ripe debounce
timer does increment the tally, and with the pin held low the tally can only
stay or fall. -/
theorem C4_polarity_edges_witness :
    ((Button_CountPushes (Button_Init 0 1 GPIO_PULLDOWN 0) 60 GPIO_PIN_SET).2.pushCount >
        (Button_Init 0 1 GPIO_PULLDOWN 0).pushCount ∧
      ((Button_Init 0 1 GPIO_PULLDOWN 0).pull ≠ GPIO_PULLUP →
        (Button_Init 0 1 GPIO_PULLDOWN 0).lastState = GPIO_PIN_RESET ∧
          GPIO_PIN_SET = GPIO_PIN_SET)) ∧
    (¬(GPIO_PIN_RESET = activeState (Button_Init 0 1 GPIO_PULLDOWN 0).pull ∧
        (Button_Init 0 1 GPIO_PULLDOWN 0).lastState =
          inactiveState (Button_Init 0 1 GPIO_PULLDOWN 0).pull) ∧
      (Button_CountPushes (Button_Init 0 1 GPIO_PULLDOWN 0) 60 GPIO_PIN_RESET).2.pushCount ≤
        (Button_Init 0 1 GPIO_PULLDOWN 0).pushCount) :=
  ⟨⟨by decide,
    ((C4_polarity_edges (Button_Init 0 1 GPIO_PULLDOWN 0) 60 GPIO_PIN_SET).1
      (by decide)).2⟩,
   ⟨by decide,
    (C4_polarity_edges (Button_Init 0 1 GPIO_PULLDOWN 0) 60 GPIO_PIN_RESET).2
      (by decide)⟩⟩

/-- C6: when the idle timeout elapses with a zero tally (and the pin resting
at its last sampled level), the call returns `return_failed` — never
`return_success` with count 0 — and resets the tally and finished flag. -/
theorem C6_zero_count_failed (b : Button_t) (now : Nat) (fc : Nat)
    (hc : b.pushCount = 0)
    (hto : softTimer_isElapsed b.timeoutTimer BUTTON_TIMEOUT_MS now = true) :
    (Button_GetFinalCount b now b.lastState fc).status = return_failed ∧
    (Button_GetFinalCount b now b.lastState fc).button.pushCount = 0 ∧
    (Button_GetFinalCount b now b.lastState fc).button.isReadFinish = false := by
  have hne : ¬(b.lastState = activeState b.pull ∧
      b.lastState = inactiveState b.pull) := by
    rintro ⟨x, y⟩
    exact active_ne_inactive b.pull (x.symm.trans y)
  unfold Button_GetFinalCount Button_CountPushes
  rw [countStep_timeout b now b.lastState (Or.inl hne) hto]
  simp [hc, PUSH_COUNT_MAX]

/-- C6 witness: a freshly initialized button whose timeout elapses after
1000 ms with no press yields `return_failed` with cleared state. -/
theorem C6_zero_count_failed_witness :
    (Button_GetFinalCount (Button_Init 0 1 GPIO_PULLDOWN 0) 1000
        (Button_Init 0 1 GPIO_PULLDOWN 0).lastState 99).status = return_failed ∧
    (Button_GetFinalCount (Button_Init 0 1 GPIO_PULLDOWN 0) 1000
        (Button_Init 0 1 GPIO_PULLDOWN 0).lastState 99).button.pushCount = 0 ∧
    (Button_GetFinalCount (Button_Init 0 1 GPIO_PULLDOWN 0) 1000
        (Button_Init 0 1 GPIO_PULLDOWN 0).lastState 99).button.isReadFinish = false :=
  C6_zero_count_failed (Button_Init 0 1 GPIO_PULLDOWN 0) 1000 99 (by decide)
    (by decide)

/-- C8: the `finalCount` output is written exactly by `return_success` calls,
any written value lies in `1..=PUSH_COUNT_MAX`, and `return_busy` or
`return_failed` calls leave the output location untouched. -/
theorem C8_output_discipline (b : Button_t) (now : Nat) (cur : GPIO_PinState)
    (fc : Nat) :
    ((Button_GetFinalCount b now cur fc).status = return_success →
      1 ≤ (Button_GetFinalCount b now cur fc).finalCount ∧
      (Button_GetFinalCount b now cur fc).finalCount ≤ PUSH_COUNT_MAX) ∧
    ((Button_GetFinalCount b now cur fc).status ≠ return_success →
      (Button_GetFinalCount b now cur fc).finalCount = fc) := by
  unfold Button_GetFinalCount Button_CountPushes
  dsimp only
  split_ifs <;> simp_all <;> omega

/-- C8 witness: one confirmed press finalized by the timeout writes count 1
(within bounds), while a busy call leaves the output value 99 untouched. -/
theorem C8_output_discipline_witness :
    (1 ≤ (Button_GetFinalCount
        (Button_GetFinalCount (Button_Init 0 1 GPIO_PULLDOWN 0) 60 GPIO_PIN_SET 99).button
        1100 GPIO_PIN_RESET 99).finalCount ∧
      (Button_GetFinalCount
        (Button_GetFinalCount (Button_Init 0 1 GPIO_PULLDOWN 0) 60 GPIO_PIN_SET 99).button
        1100 GPIO_PIN_RESET 99).finalCount ≤ PUSH_COUNT_MAX) ∧
    (Button_GetFinalCount (Button_Init 0 1 GPIO_PULLDOWN 0) 60 GPIO_PIN_SET 99).finalCount = 99 :=
  ⟨(C8_output_discipline
      (Button_GetFinalCount (Button_Init 0 1 GPIO_PULLDOWN 0) 60 GPIO_PIN_SET 99).button
      1100 GPIO_PIN_RESET 99).1 (by decide),
   (C8_output_discipline (Button_Init 0 1 GPIO_PULLDOWN 0) 60 GPIO_PIN_SET 99).2
      (by decide)⟩

/-- A pin resting at the last sampled level can never form an
inactive-to-active transition. -/
lemma noedge_self (b : Button_t) :
    ¬(b.lastState = activeState b.pull ∧ b.lastState = inactiveState b.pull) :=
  fun h => active_ne_inactive b.pull (h.1.symm.trans h.2)

/-- A call on a state with an in-range tally and consumed finished flag, with
no inactive-to-active edge and the timeout timer not elapsed, returns
`return_busy` and only records the sampled level. -/
lemma GetFinal_busy_quiet (b : Button_t) (now : Nat) (cur : GPIO_PinState)
    (fc : Nat) (hpc : b.pushCount ≤ PUSH_COUNT_MAX) (hrf : b.isReadFinish = false)
    (hne : ¬(cur = activeState b.pull ∧ b.lastState = inactiveState b.pull))
    (hto : softTimer_isElapsed b.timeoutTimer BUTTON_TIMEOUT_MS now = false) :
    Button_GetFinalCount b now cur fc =
      { status := return_busy, button := { b with lastState := cur },
        finalCount := fc } := by
  unfold Button_GetFinalCount Button_CountPushes
  rw [countStep_quiet b now cur (Or.inl hne) hto]
  dsimp only
  split_ifs with hov <;> simp_all [PUSH_COUNT_MAX] <;> omega

/-- C1: a state holding a tally in `1..=PUSH_COUNT_MAX` with the finished flag
set is finalized by the next call (pin resting): `return_success` writing the
tally, with counters cleared; a subsequent call with no new edge and no new
timeout elapse returns `return_busy` on the cleared state. -/
theorem C1_timeout_finalization (b : Button_t) (now1 now2 fc1 fc2 : Nat)
    (h1 : 1 ≤ b.pushCount) (h2 : b.pushCount ≤ PUSH_COUNT_MAX)
    (hrf : b.isReadFinish = true) :
    (Button_GetFinalCount b now1 b.lastState fc1).status = return_success ∧
    (Button_GetFinalCount b now1 b.lastState fc1).finalCount = b.pushCount ∧
    (Button_GetFinalCount b now1 b.lastState fc1).button.pushCount = 0 ∧
    (Button_GetFinalCount b now1 b.lastState fc1).button.isReadFinish = false ∧
    (softTimer_isElapsed
        (Button_GetFinalCount b now1 b.lastState fc1).button.timeoutTimer
        BUTTON_TIMEOUT_MS now2 = false →
      (Button_GetFinalCount (Button_GetFinalCount b now1 b.lastState fc1).button
          now2 (Button_GetFinalCount b now1 b.lastState fc1).button.lastState
          fc2).status = return_busy ∧
      (Button_GetFinalCount (Button_GetFinalCount b now1 b.lastState fc1).button
          now2 (Button_GetFinalCount b now1 b.lastState fc1).button.lastState
          fc2).button.pushCount = 0 ∧
      (Button_GetFinalCount (Button_GetFinalCount b now1 b.lastState fc1).button
          now2 (Button_GetFinalCount b now1 b.lastState fc1).button.lastState
          fc2).button.isReadFinish = false) := by
  cases hto1 : softTimer_isElapsed b.timeoutTimer BUTTON_TIMEOUT_MS now1 with
  | true =>
      have e1 : Button_GetFinalCount b now1 b.lastState fc1 =
          { status := return_success
            button := { b with pushCount := 0
                               isReadFinish := false
                               timeoutTimer := softTimer_reset now1 }
            finalCount := b.pushCount } := by
        unfold Button_GetFinalCount Button_CountPushes
        rw [countStep_timeout b now1 b.lastState (Or.inl (noedge_self b)) hto1]
        dsimp only
        split_ifs with hov hval <;>
          simp_all [PUSH_COUNT_MAX] <;> omega
      rw [e1]
      refine ⟨rfl, rfl, rfl, rfl, fun hto2 => ?_⟩
      rw [GetFinal_busy_quiet _ now2 _ fc2 (Nat.zero_le _) rfl
        (noedge_self _) hto2]
      exact ⟨rfl, rfl, rfl⟩
  | false =>
      have e1 : Button_GetFinalCount b now1 b.lastState fc1 =
          { status := return_success
            button := { b with pushCount := 0
                               isReadFinish := false }
            finalCount := b.pushCount } := by
        unfold Button_GetFinalCount Button_CountPushes
        rw [countStep_quiet b now1 b.lastState (Or.inl (noedge_self b)) hto1]
        dsimp only
        split_ifs with hov hval <;>
          simp_all [PUSH_COUNT_MAX] <;> omega
      rw [e1]
      refine ⟨rfl, rfl, rfl, rfl, fun hto2 => ?_⟩
      rw [GetFinal_busy_quiet _ now2 _ fc2 (Nat.zero_le _) rfl
        (noedge_self _) hto2]
      exact ⟨rfl, rfl, rfl⟩

/-- C1 witness: a finished state with tally 2 is finalized with count 2, and
the immediately following call reports `return_busy` on cleared counters. -/
theorem C1_timeout_finalization_witness :
    (Button_GetFinalCount
        { port := 0, pin := 1, pushCount := 2, isReadFinish := true,
          debounceTimer := 0, timeoutTimer := 0, lastState := GPIO_PIN_RESET,
          pull := GPIO_PULLDOWN } 10
        GPIO_PIN_RESET 99).status = return_success ∧
    (Button_GetFinalCount
        { port := 0, pin := 1, pushCount := 2, isReadFinish := true,
          debounceTimer := 0, timeoutTimer := 0, lastState := GPIO_PIN_RESET,
          pull := GPIO_PULLDOWN } 10
        GPIO_PIN_RESET 99).finalCount = 2 ∧
    (Button_GetFinalCount
        (Button_GetFinalCount
          { port := 0, pin := 1, pushCount := 2, isReadFinish := true,
            debounceTimer := 0, timeoutTimer := 0, lastState := GPIO_PIN_RESET,
            pull := GPIO_PULLDOWN } 10 GPIO_PIN_RESET 99).button 20
        (Button_GetFinalCount
          { port := 0, pin := 1, pushCount := 2, isReadFinish := true,
            debounceTimer := 0, timeoutTimer := 0, lastState := GPIO_PIN_RESET,
            pull := GPIO_PULLDOWN } 10 GPIO_PIN_RESET 99).button.lastState
        98).status = return_busy := by
  have h := C1_timeout_finalization
    { port := 0, pin := 1, pushCount := 2, isReadFinish := true,
      debounceTimer := 0, timeoutTimer := 0, lastState := GPIO_PIN_RESET,
      pull := GPIO_PULLDOWN } 10 20 99 98 (by decide) (by decide) rfl
  exact ⟨h.1, h.2.1, (h.2.2.2.2 (by decide)).1⟩

/-- C2: from any reachable state, a call returning `return_success` or
`return_failed` leaves the tally at 0 and the finished flag cleared,
including the `return_failed` outcome of the overflow guard. -/
theorem C2_terminal_resets (b : Button_t) (now : Nat) (cur : GPIO_PinState)
    (fc : Nat) (hb : Reachable b)
    (hs : (Button_GetFinalCount b now cur fc).status = return_success ∨
      (Button_GetFinalCount b now cur fc).status = return_failed) :
    (Button_GetFinalCount b now cur fc).button.pushCount = 0 ∧
    (Button_GetFinalCount b now cur fc).button.isReadFinish = false := by
  obtain ⟨hpc, hrf, htm⟩ := Reachable_Inv b hb
  unfold Button_GetFinalCount Button_CountPushes at hs ⊢
  dsimp only at hs ⊢
  by_cases he : cur = activeState b.pull ∧ b.lastState = inactiveState b.pull
  · cases hd : softTimer_isElapsed b.debounceTimer DEBOUNCE_DELAY_MS now with
    | true =>
        rw [countStep_confirmed b now cur he.1 he.2 hd,
          mod256_small b.pushCount hpc] at hs ⊢
        simp only [softTimer_reset, hrf] at hs ⊢
        split_ifs at hs ⊢ with hov <;> simp_all
    | false =>
        cases hto : softTimer_isElapsed b.timeoutTimer BUTTON_TIMEOUT_MS now with
        | true =>
            rw [countStep_timeout b now cur (Or.inr hd) hto] at hs ⊢
            simp only [softTimer_reset, hrf] at hs ⊢
            split_ifs at hs ⊢ with hov hval <;> simp_all [PUSH_COUNT_MAX] <;>
              omega
        | false =>
            rw [countStep_quiet b now cur (Or.inr hd) hto] at hs ⊢
            simp only [hrf] at hs ⊢
            split_ifs at hs ⊢ with hov <;> simp_all
  · cases hto : softTimer_isElapsed b.timeoutTimer BUTTON_TIMEOUT_MS now with
    | true =>
        rw [countStep_timeout b now cur (Or.inl he) hto] at hs ⊢
        simp only [softTimer_reset, hrf] at hs ⊢
        split_ifs at hs ⊢ with hov hval <;> simp_all [PUSH_COUNT_MAX] <;>
          omega
    | false =>
        rw [countStep_quiet b now cur (Or.inl he) hto] at hs ⊢
        simp only [hrf] at hs ⊢
        split_ifs at hs ⊢ with hov <;> simp_all

/-- C2 witness: the freshly initialized button finalized by the timeout with a
zero tally returns `return_failed` and indeed ends with cleared counters. -/
theorem C2_terminal_resets_witness :
    (Button_GetFinalCount (Button_Init 0 1 GPIO_PULLDOWN 0) 1000
        GPIO_PIN_RESET 99).button.pushCount = 0 ∧
    (Button_GetFinalCount (Button_Init 0 1 GPIO_PULLDOWN 0) 1000
        GPIO_PIN_RESET 99).button.isReadFinish = false :=
  C2_terminal_resets (Button_Init 0 1 GPIO_PULLDOWN 0) 1000 GPIO_PIN_RESET 99
    (Reachable.init 0 1 GPIO_PULLDOWN 0) (Or.inr (by decide))

/-- C5: from any reachable state, an inactive-to-active transition sampled
while the debounce timer has not reached `DEBOUNCE_DELAY_MS` is silently
ignored: the tally, both timers and the finished flag are all unchanged. -/
theorem C5_debounce_rejection (b : Button_t) (now : Nat) (cur : GPIO_PinState)
    (hb : Reachable b)
    (h1 : cur = activeState b.pull) (h2 : b.lastState = inactiveState b.pull)
    (hd : softTimer_isElapsed b.debounceTimer DEBOUNCE_DELAY_MS now = false) :
    (Button_CountPushes b now cur).2.pushCount = b.pushCount ∧
    (Button_CountPushes b now cur).2.debounceTimer = b.debounceTimer ∧
    (Button_CountPushes b now cur).2.timeoutTimer = b.timeoutTimer ∧
    (Button_CountPushes b now cur).2.isReadFinish = b.isReadFinish := by
  obtain ⟨hpc, hrf, htm⟩ := Reachable_Inv b hb
  have hto : softTimer_isElapsed b.timeoutTimer BUTTON_TIMEOUT_MS now = false := by
    simp only [softTimer_isElapsed, DEBOUNCE_DELAY_MS, decide_eq_false_iff_not,
      not_le] at hd
    simp only [softTimer_isElapsed, BUTTON_TIMEOUT_MS, SEC_TO_MS,
      decide_eq_false_iff_not, not_le]
    omega
  unfold Button_CountPushes
  rw [countStep_quiet b now cur (Or.inr hd) hto]
  dsimp only
  split_ifs with hov <;> simp_all [PUSH_COUNT_MAX] <;> omega

/-- C5 witness: on a freshly initialized pull-down button, a low-to-high
transition after only 10 ms is ignored: tally, timers and flag untouched. -/
theorem C5_debounce_rejection_witness :
    (Button_CountPushes (Button_Init 0 1 GPIO_PULLDOWN 0) 10 GPIO_PIN_SET).2.pushCount =
      (Button_Init 0 1 GPIO_PULLDOWN 0).pushCount ∧
    (Button_CountPushes (Button_Init 0 1 GPIO_PULLDOWN 0) 10 GPIO_PIN_SET).2.debounceTimer =
      (Button_Init 0 1 GPIO_PULLDOWN 0).debounceTimer ∧
    (Button_CountPushes (Button_Init 0 1 GPIO_PULLDOWN 0) 10 GPIO_PIN_SET).2.timeoutTimer =
      (Button_Init 0 1 GPIO_PULLDOWN 0).timeoutTimer ∧
    (Button_CountPushes (Button_Init 0 1 GPIO_PULLDOWN 0) 10 GPIO_PIN_SET).2.isReadFinish =
      (Button_Init 0 1 GPIO_PULLDOWN 0).isReadFinish :=
  C5_debounce_rejection (Button_Init 0 1 GPIO_PULLDOWN 0) 10 GPIO_PIN_SET
    (Reachable.init 0 1 GPIO_PULLDOWN 0) (by decide) (by decide) (by decide)

/-- C7 counterexample: under pull-up configuration `Button_Init` does not set
`lastState` to the inactive (high) level — it unconditionally stores
`GPIO_PIN_RESET`, the active level for pull-up. -/
theorem C7_init_lastState_counterexample :
    (Button_Init 0 0 GPIO_PULLUP 0).lastState ≠ inactiveState GPIO_PULLUP := by
  decide

/-- C7 (amended): `Button_Init` zeroes the tally, clears the finished flag,
resets both timers to the current tick, stores port, pin and pull, and sets
`lastState` unconditionally to the low level `GPIO_PIN_RESET` — the inactive
level for pulled-down / no-pull, but not for pulled-up. -/
theorem C7_init_effects (port pin pull now : Nat) :
    (Button_Init port pin pull now).pushCount = 0 ∧
    (Button_Init port pin pull now).isReadFinish = false ∧
    (Button_Init port pin pull now).debounceTimer = softTimer_reset now ∧
    (Button_Init port pin pull now).timeoutTimer = softTimer_reset now ∧
    (Button_Init port pin pull now).port = port ∧
    (Button_Init port pin pull now).pin = pin ∧
    (Button_Init port pin pull now).pull = pull ∧
    (Button_Init port pin pull now).lastState = GPIO_PIN_RESET ∧
    (pull ≠ GPIO_PULLUP →
      (Button_Init port pin pull now).lastState = inactiveState pull) := by
  refine ⟨rfl, rfl, rfl, rfl, rfl, rfl, rfl, rfl, fun hp => ?_⟩
  simp [Button_Init, inactiveState, if_neg hp]

/-- C7 witness: for a pull-down button the stored `lastState` coincides with
the inactive level, and the tally starts at 0. -/
theorem C7_init_effects_witness :
    GPIO_PULLDOWN ≠ GPIO_PULLUP ∧
    (Button_Init 3 4 GPIO_PULLDOWN 7).lastState = inactiveState GPIO_PULLDOWN ∧
    (Button_Init 3 4 GPIO_PULLDOWN 7).pushCount = 0 :=
  ⟨by decide, (C7_init_effects 3 4 GPIO_PULLDOWN 7).2.2.2.2.2.2.2.2 (by decide),
   (C7_init_effects 3 4 GPIO_PULLDOWN 7).1⟩

/-- C9: from any reachable state, a call with no inactive-to-active edge and
the timeout not elapsed returns `return_busy` with the tally and finished flag
unchanged, and a further such call keeps returning `return_busy` with those
fields still unchanged. -/
theorem C9_idempotent_busy (b : Button_t) (now now2 : Nat)
    (cur cur2 : GPIO_PinState) (fc fc2 : Nat) (hb : Reachable b)
    (hne : ¬(cur = activeState b.pull ∧ b.lastState = inactiveState b.pull))
    (hto : softTimer_isElapsed b.timeoutTimer BUTTON_TIMEOUT_MS now = false) :
    (Button_GetFinalCount b now cur fc).status = return_busy ∧
    (Button_GetFinalCount b now cur fc).button.pushCount = b.pushCount ∧
    (Button_GetFinalCount b now cur fc).button.isReadFinish = b.isReadFinish ∧
    (¬(cur2 = activeState b.pull ∧ cur = inactiveState b.pull) →
      softTimer_isElapsed b.timeoutTimer BUTTON_TIMEOUT_MS now2 = false →
      (Button_GetFinalCount (Button_GetFinalCount b now cur fc).button now2 cur2
          fc2).status = return_busy ∧
      (Button_GetFinalCount (Button_GetFinalCount b now cur fc).button now2 cur2
          fc2).button.pushCount = b.pushCount ∧
      (Button_GetFinalCount (Button_GetFinalCount b now cur fc).button now2 cur2
          fc2).button.isReadFinish = b.isReadFinish) := by
  obtain ⟨hpc, hrf, htm⟩ := Reachable_Inv b hb
  rw [GetFinal_busy_quiet b now cur fc hpc hrf hne hto]
  refine ⟨rfl, rfl, rfl, fun hne2 hto2 => ?_⟩
  dsimp only
  rw [GetFinal_busy_quiet { b with lastState := cur } now2 cur2 fc2 hpc hrf
    hne2 hto2]
  exact ⟨rfl, rfl, rfl⟩

/-- C9 witness: on a freshly initialized pull-down button with the pin low,
two successive calls before the timeout both return `return_busy` and leave
the tally and flag at their initial values. -/
theorem C9_idempotent_busy_witness :
    (Button_GetFinalCount (Button_Init 0 1 GPIO_PULLDOWN 0) 10 GPIO_PIN_RESET
        99).status = return_busy ∧
    (Button_GetFinalCount
        (Button_GetFinalCount (Button_Init 0 1 GPIO_PULLDOWN 0) 10
          GPIO_PIN_RESET 99).button 20 GPIO_PIN_RESET
        98).status = return_busy := by
  have h := C9_idempotent_busy (Button_Init 0 1 GPIO_PULLDOWN 0) 10 20
    GPIO_PIN_RESET GPIO_PIN_RESET 99 98 (Reachable.init 0 1 GPIO_PULLDOWN 0)
    (by decide) (by decide)
  exact ⟨h.1, (h.2.2.2 (by decide) (by decide)).1⟩

/-- C10: a single poll call increases the tally by at most one, both at the
counting step and as observed through `Button_GetFinalCount`. -/
theorem C10_at_most_one_increment (b : Button_t) (now : Nat)
    (cur : GPIO_PinState) (fc : Nat) :
    (Button_CountPushes b now cur).2.pushCount ≤ b.pushCount + 1 ∧
    (Button_GetFinalCount b now cur fc).button.pushCount ≤ b.pushCount + 1 := by
  have h1 : (countStep b now cur).pushCount = b.pushCount ∨
      (countStep b now cur).pushCount = (b.pushCount + 1) % 2 ^ 8 := by
    unfold countStep
    dsimp only
    split_ifs <;> simp
  have hm : (b.pushCount + 1) % 2 ^ 8 ≤ b.pushCount + 1 := Nat.mod_le _ _
  unfold Button_GetFinalCount Button_CountPushes
  dsimp only
  split_ifs <;> rcases h1 with h | h <;> simp_all <;> omega

end ButtonHandler
